import Mathlib

/-
Verification of the DKS_S solid equation of state (burnman/eos/dks_solid.py)
against its natural-language specification.

The numeric formulas of the source are embedded over the real numbers:
python float expressions become real arithmetic, `np.power` becomes
`Real.rpow`, `np.log` becomes `Real.log`.  Raised python exceptions become
`Except` values of the error type `PyErr` below, whose constructors mirror
the exception classes the source can raise (`KeyError`, `ValueError`, and
the generic `Exception`).
-/

namespace DKS_S

/-- Python exception kinds raised by the source: `KeyError` (missing dict
key), `ValueError` (raised by the bracketing helper), and the generic
`Exception` class. -/
inductive PyErr where
  | keyError : String → PyErr
  | valueError : String → PyErr
  | exception : String → PyErr
deriving DecidableEq

/-- The eleven calibration constants of a Parameter Set, mirroring the
eleven dictionary keys the source reads (`V_0`, `T_0`, `E_0`, `S_0`,
`K_0`, `Kprime_0`, `Kdprime_0`, `n`, `Cv`, `grueneisen_0`, `q_0`). -/
structure Params where
  V_0 : ℝ
  T_0 : ℝ
  E_0 : ℝ
  S_0 : ℝ
  K_0 : ℝ
  Kprime_0 : ℝ
  Kdprime_0 : ℝ
  n : ℝ
  Cv : ℝ
  grueneisen_0 : ℝ
  q_0 : ℝ

/-- Eulerian finite strain `f(V)`, from `DKS_S.__finite_strain`:
`(1/2)*((V_0/volume)**(2/3) - 1)`. -/
noncomputable def finite_strain (_temperature volume : ℝ) (p : Params) : ℝ :=
  (1 / 2) * ((p.V_0 / volume) ^ ((2 : ℝ) / 3) - 1)

/-- Integral of `a*K_T` over volume, from `DKS_S.__int_aKt_dV`:
`Cv*grueneisen_0/q_0*((volume/V_0)**q_0 - 1)`. -/
noncomputable def int_aKt_dV (_temperature volume : ℝ) (p : Params) : ℝ :=
  p.Cv * p.grueneisen_0 / p.q_0 * ((volume / p.V_0) ^ p.q_0 - 1)

/-- Compressive free energy, from `DKS_S.__F_cmp`. -/
noncomputable def F_cmp (temperature volume : ℝ) (p : Params) : ℝ :=
  let f := finite_strain temperature volume p
  let K_0 := p.K_0
  let Kprime_0 := p.Kprime_0
  let Kdprime_0 := p.Kdprime_0
  let a3 := 3 * (Kprime_0 - 4)
  let a4 := 9 * (K_0 * Kdprime_0 + Kprime_0 * (Kprime_0 - 7)) + 143
  9 * K_0 * p.V_0 * (f * f / 2 + a3 * f * f * f / 6 + a4 * f * f * f * f / 24)

/-- Thermal free energy, from `DKS_S.__F_th`. -/
noncomputable def F_th (temperature volume : ℝ) (p : Params) : ℝ :=
  -p.S_0 * (temperature - p.T_0)
    - p.Cv * (temperature * Real.log (temperature / p.T_0) - (temperature - p.T_0))
    - int_aKt_dV temperature volume p * (temperature - p.T_0)

/-- Grüneisen parameter, from `DKS_S.grueneisen_parameter`:
`grueneisen_0 * (volume/V_0)**q_0`.  The `pressure` and `temperature`
arguments are accepted but unused, as in the source. -/
noncomputable def grueneisen_parameter (_pressure _temperature volume : ℝ) (p : Params) : ℝ :=
  p.grueneisen_0 * (volume / p.V_0) ^ p.q_0

/-- Pressure, from `DKS_S.pressure`.  The source also binds
`n = params['n']` without using it; the unused binding is kept. -/
noncomputable def pressure (temperature volume : ℝ) (p : Params) : ℝ :=
  let f := finite_strain temperature volume p
  let _n := p.n
  let K_0 := p.K_0
  let Kprime_0 := p.Kprime_0
  let Kdprime_0 := p.Kdprime_0
  let a3 := 3 * (Kprime_0 - 4)
  let a4 := 9 * (K_0 * Kdprime_0 + Kprime_0 * (Kprime_0 - 7)) + 143
  3 * p.K_0 * (1 + 2 * f) ^ (2.5 : ℝ) * (f + a3 * f * f / 2 + a4 / 6 * f * f * f)
    + p.Cv * (temperature - p.T_0) * grueneisen_parameter 0 temperature volume p / volume

/-- Residual whose root is the inverted volume, from the lambda
`_delta_pressure` inside `DKS_S.volume`:
`pressure_arg - self.pressure(temperature, x, params)`. -/
noncomputable def delta_pressure (x P temperature : ℝ) (p : Params) : ℝ :=
  P - pressure temperature x p

/-- Iteration bound of the bracketing search (the spec leaves
`max_bracket_iterations` implicit; a concrete bound of 100 is used). -/
def maxBracketIter : ℕ := 100

/-- Modelled from the spec: the `bracket` helper from `burnman.tools` is
called by `DKS_S.volume` but its source is not under `src/`.  Per the
spec, the search probes the starting bracket `[1e-2*V_0, V_0]` (the call
passes `x0 = V_0` and `dx = 1e-2*V_0`) and expands outward looking for a
sign change; the expansion rate is implicit in the spec, and a factor of
2 per step is used here.  `bracketIntervals x0 dx k` is the interval
probed at step `k`. -/
noncomputable def bracketIntervals (x0 dx : ℝ) (k : ℕ) : ℝ × ℝ :=
  (dx / 2 ^ k, x0 * 2 ^ k)

/-- Modelled from the spec: the bounded expanding search for a
sign-changing interval of `g`, probing `bracketIntervals x0 dx k` for
`k = 0, 1, ...` while fuel lasts and returning the first interval on
which `g` strictly changes sign, or `none` when the search space is
exhausted (the helper then raises `ValueError`). -/
noncomputable def bracketSearchAux (g : ℝ → ℝ) (x0 dx : ℝ) : ℕ → ℕ → Option (ℝ × ℝ)
  | _, 0 => none
  | k, fuel + 1 =>
      let iv := bracketIntervals x0 dx k
      if g iv.1 * g iv.2 < 0 then some iv else bracketSearchAux g x0 dx (k + 1) fuel

/-- Modelled from the spec: entry point of the bracketing search, starting
at step 0 with `maxBracketIter` fuel. -/
noncomputable def bracketSearch (g : ℝ → ℝ) (x0 dx : ℝ) : Option (ℝ × ℝ) :=
  bracketSearchAux g x0 dx 0 maxBracketIter

/-- Modelled from the spec: the Brent root refinement (`opt.brentq`)
idealized to zero tolerance: it returns a root of `g` inside the
bracketing interval when one exists. -/
noncomputable def brentq (g : ℝ → ℝ) (lo hi : ℝ) : ℝ :=
  @dite _ (∃ x, lo ≤ x ∧ x ≤ hi ∧ g x = 0) (Classical.propDecidable _)
    (fun h => h.choose) (fun _ => lo)

/-- Volume inversion, from `DKS_S.volume`: bracket the residual starting
from `x0 = V_0`, `dx = 1e-2*V_0`; on bracketing failure (the helper's
`ValueError`) the source raises the generic
`Exception('Cannot find a volume, ...')`; otherwise `opt.brentq` refines
the root inside the bracket. -/
noncomputable def volume (P temperature : ℝ) (p : Params) : Except PyErr ℝ :=
  match bracketSearch (fun x => delta_pressure x P temperature p) p.V_0 (1e-2 * p.V_0) with
  | none => .error (.exception
      "Cannot find a volume, perhaps you are outside of the range of validity for the equation of state?")
  | some (lo, hi) => .ok (brentq (fun x => delta_pressure x P temperature p) lo hi)

/-- The admissible outputs of the volume inversion: `v` is a possible
return value of `DKS_S.volume P T params` exactly when the bracketing
search succeeds on some interval `[lo, hi]` and `v` is a root of the
pressure residual inside that interval (Brent tolerance idealized to
zero). -/
def volume_rel (P temperature : ℝ) (p : Params) (v : ℝ) : Prop :=
  ∃ lo hi,
    bracketSearch (fun x => delta_pressure x P temperature p) p.V_0 (1e-2 * p.V_0)
      = some (lo, hi) ∧
    lo ≤ v ∧ v ≤ hi ∧ delta_pressure v P temperature p = 0

/-- Isothermal bulk modulus stub, from `DKS_S.isothermal_bulk_modulus`. -/
def isothermal_bulk_modulus (_pressure _temperature _volume : ℝ) (_p : Params) : ℝ := 0

/-- Adiabatic bulk modulus stub, from `DKS_S.adiabatic_bulk_modulus`. -/
def adiabatic_bulk_modulus (_pressure _temperature _volume : ℝ) (_p : Params) : ℝ := 0

/-- Shear modulus stub, from `DKS_S.shear_modulus`. -/
def shear_modulus (_pressure _temperature _volume : ℝ) (_p : Params) : ℝ := 0

/-- Heat capacity at constant volume, from `DKS_S.heat_capacity_v`. -/
def heat_capacity_v (_pressure _temperature _volume : ℝ) (p : Params) : ℝ := p.Cv

/-- Heat capacity at constant pressure stub, from `DKS_S.heat_capacity_p`. -/
def heat_capacity_p (_pressure _temperature _volume : ℝ) (_p : Params) : ℝ := 0

/-- Thermal expansivity stub, from `DKS_S.thermal_expansivity`. -/
def thermal_expansivity (_pressure _temperature _volume : ℝ) (_p : Params) : ℝ := 0

/-- Helmholtz free energy, from `DKS_S.helmholtz_free_energy`. -/
noncomputable def helmholtz_free_energy (_pressure temperature volume : ℝ) (p : Params) : ℝ :=
  p.E_0 - p.T_0 * p.S_0 + F_cmp temperature volume p + F_th temperature volume p

/-- Gibbs free energy, from `DKS_S.gibbs_free_energy`:
`helmholtz_free_energy(...) + pressure * volume`, where `volume` is the
caller-supplied volume argument. -/
noncomputable def gibbs_free_energy (P temperature volume : ℝ) (p : Params) : ℝ :=
  helmholtz_free_energy P temperature volume p + P * volume

/-- Entropy, from `DKS_S.entropy`. -/
noncomputable def entropy (_pressure temperature volume : ℝ) (p : Params) : ℝ :=
  p.S_0 + int_aKt_dV temperature volume p + p.Cv * Real.log (temperature / p.T_0)

/-- Enthalpy, from `DKS_S.enthalpy`: `helmholtz + T*entropy + P*self.volume(P, T, params)`;
the `P*V` term uses the re-derived volume, so a failed inversion
propagates. -/
noncomputable def enthalpy (P temperature volume : ℝ) (p : Params) : Except PyErr ℝ :=
  (DKS_S.volume P temperature p).map fun v =>
    helmholtz_free_energy P temperature volume p
      + temperature * entropy P temperature volume p + P * v

/-- Internal energy, from `DKS_S.internal_energy`. -/
noncomputable def internal_energy (P temperature volume : ℝ) (p : Params) : ℝ :=
  helmholtz_free_energy P temperature volume p + temperature * entropy P temperature volume p

/-- The eleven required dictionary keys, from `DKS_S.validate_parameters`. -/
def expected_keys : List String :=
  ["V_0", "T_0", "E_0", "S_0", "K_0", "Kprime_0", "Kdprime_0", "n", "Cv", "grueneisen_0", "q_0"]

/-- The presence loop of `DKS_S.validate_parameters`: walk the expected
keys in order, raising `KeyError('params object missing parameter : ' + k)`
at the first key absent from the parameter dictionary.  Only the key set
of the dictionary is inspected, so `keys` is the list of keys present. -/
def validateKeys (keys : List String) : List String → Except PyErr Unit
  | [] => .ok ()
  | k :: rest =>
      if keys.contains k then validateKeys keys rest
      else .error (.keyError ("params object missing parameter : " ++ k))

/-- Parameter validation, from `DKS_S.validate_parameters`: check the
presence of each expected key.  The trailing comment of the source notes
that no numeric-range check is performed, and none is. -/
def validate_parameters (keys : List String) : Except PyErr Unit :=
  validateKeys keys expected_keys

/-- A concrete Parameter Set on which the pressure formula collapses to
`pressure(1, v) = 1/v`: the zero bulk modulus kills the finite-strain
term and `q_0 = 0` freezes the Grüneisen power law, so the pressure is
strictly decreasing (injective) in volume. -/
noncomputable def pInj : Params :=
  { V_0 := 1, T_0 := 0, E_0 := 0, S_0 := 0, K_0 := 0, Kprime_0 := 4,
    Kdprime_0 := 0, n := 1, Cv := 1, grueneisen_0 := 1, q_0 := 0 }

/-- A concrete Parameter Set on which the pressure is constant in volume,
`pressure(1, v) = 1` for every `v ≠ 0`: the zero bulk modulus kills the
finite-strain term and `q_0 = 1` makes the thermal term `v/v`.  No
residual sign change exists anywhere, so the bracketing search fails. -/
noncomputable def pConst : Params :=
  { V_0 := 1, T_0 := 0, E_0 := 0, S_0 := 0, K_0 := 0, Kprime_0 := 4,
    Kdprime_0 := 0, n := 1, Cv := 1, grueneisen_0 := 1, q_0 := 1 }

/-- A concrete Parameter Set whose fourth-order finite-strain pressure is
not monotone in volume: with `a3 = 3*(Kprime_0 - 4) = -737/636` and
`a4 = 9*(K_0*Kdprime_0 + Kprime_0*(Kprime_0 - 7)) + 143 = 1/2` the
pressures at `V = 1/8` (strain `f = 3/2`) and `V = 1/27` (strain `f = 4`)
are both exactly `2430/53`, while `Cv = 0` removes the thermal term. -/
noncomputable def pC1 : Params :=
  { V_0 := 1, T_0 := 300, E_0 := 0, S_0 := 0, K_0 := 1, Kprime_0 := 6895 / 1908,
    Kdprime_0 := -13092085 / 3640464, n := 1, Cv := 0, grueneisen_0 := 1, q_0 := 1 }

end DKS_S

namespace DKS_S

lemma validateKeys_ok (keys : List String) :
    ∀ ks : List String, (∀ k ∈ ks, keys.contains k = true) →
      validateKeys keys ks = .ok () := by
  intro ks
  induction ks with
  | nil => intro _; rfl
  | cons k rest ih =>
      intro h
      have hk : keys.contains k = true := h k (List.mem_cons_self _ _)
      simp only [validateKeys, hk, if_true]
      exact ih fun x hx => h x (List.mem_cons_of_mem _ hx)

lemma validateKeys_error (keys : List String) :
    ∀ ks : List String, (∃ k ∈ ks, keys.contains k = false) →
      ∃ k ∈ ks, keys.contains k = false ∧
        validateKeys keys ks
          = .error (.keyError ("params object missing parameter : " ++ k)) := by
  intro ks
  induction ks with
  | nil => rintro ⟨k, hk, _⟩; exact absurd hk (List.not_mem_nil k)
  | cons k rest ih =>
      rintro ⟨k', hk', hc⟩
      by_cases hk : keys.contains k = true
      · have hk'rest : k' ∈ rest := by
          rcases List.mem_cons.1 hk' with rfl | h
          · rw [hk] at hc; exact absurd hc (by simp)
          · exact h
        obtain ⟨k₀, hk₀, hc₀, heq⟩ := ih ⟨k', hk'rest, hc⟩
        refine ⟨k₀, List.mem_cons_of_mem _ hk₀, hc₀, ?_⟩
        simpa only [validateKeys, hk, if_true] using heq
      · have hkf : keys.contains k = false := by
          cases h : keys.contains k
          · rfl
          · exact absurd h hk
        exact ⟨k, List.mem_cons_self _ _, hkf, by simp only [validateKeys, hkf]; rfl⟩

/-- C4: `validate_parameters` checks the presence of the eleven required
keys: when some required key is absent it fails with a `KeyError` naming
a missing required key (the first one in checking order); when every key
but `K_0` is present it fails with the `KeyError` naming `K_0`; and when
all eleven keys are present it succeeds, with no numeric-range check
(the key list is the only input inspected). -/
theorem validate_parameters_spec (keys : List String) :
    ((∃ k ∈ expected_keys, keys.contains k = false) →
      ∃ k ∈ expected_keys, keys.contains k = false ∧
        validate_parameters keys
          = .error (.keyError ("params object missing parameter : " ++ k))) ∧
    ((keys.contains "K_0" = false ∧
        ∀ k ∈ expected_keys, k ≠ "K_0" → keys.contains k = true) →
      validate_parameters keys
        = .error (.keyError "params object missing parameter : K_0")) ∧
    ((∀ k ∈ expected_keys, keys.contains k = true) →
      validate_parameters keys = .ok ()) := by
  refine ⟨fun h => validateKeys_error keys expected_keys h,
    fun h => ?_, fun h => validateKeys_ok keys expected_keys h⟩
  obtain ⟨hK, hrest⟩ := h
  have h1 : keys.contains "V_0" = true :=
    hrest _ (by simp [expected_keys]) (by decide)
  have h2 : keys.contains "T_0" = true :=
    hrest _ (by simp [expected_keys]) (by decide)
  have h3 : keys.contains "E_0" = true :=
    hrest _ (by simp [expected_keys]) (by decide)
  have h4 : keys.contains "S_0" = true :=
    hrest _ (by simp [expected_keys]) (by decide)
  have m1 : "V_0" ∈ keys := by simpa using h1
  have m2 : "T_0" ∈ keys := by simpa using h2
  have m3 : "E_0" ∈ keys := by simpa using h3
  have m4 : "S_0" ∈ keys := by simpa using h4
  have mK : "K_0" ∉ keys := by simpa using hK
  simp [validate_parameters, expected_keys, validateKeys, m1, m2, m3, m4, mK]

/-- C4 witness: on the Parameter Set lacking exactly `K_0`, validation
fails with the `KeyError` naming `K_0`. -/
theorem validate_parameters_spec_witness :
    validate_parameters
        ["V_0", "T_0", "E_0", "S_0", "Kprime_0", "Kdprime_0", "n", "Cv",
          "grueneisen_0", "q_0"]
      = .error (.keyError "params object missing parameter : K_0") :=
  (validate_parameters_spec _).2.1 (by decide)

/-- C8: the five derivative properties left unimplemented in this EOS
variant return exactly `0` on every input; being total functions of the
embedding they raise nothing. -/
theorem unimplemented_properties_zero (P T V : ℝ) (p : Params) :
    isothermal_bulk_modulus P T V p = 0 ∧
    adiabatic_bulk_modulus P T V p = 0 ∧
    shear_modulus P T V p = 0 ∧
    heat_capacity_p P T V p = 0 ∧
    thermal_expansivity P T V p = 0 :=
  ⟨rfl, rfl, rfl, rfl, rfl⟩

/-- C9: the Grüneisen parameter equals `grueneisen_0*(V/V_0)^q_0`, does
not depend on its pressure and temperature arguments, and equals
`grueneisen_0` exactly at `V = V_0` (the reference volume being nonzero
so that `V_0/V_0 = 1`). -/
theorem grueneisen_parameter_pure (P₁ T₁ P₂ T₂ V : ℝ) (p : Params) :
    grueneisen_parameter P₁ T₁ V p = p.grueneisen_0 * (V / p.V_0) ^ p.q_0 ∧
    grueneisen_parameter P₁ T₁ V p = grueneisen_parameter P₂ T₂ V p ∧
    (p.V_0 ≠ 0 → grueneisen_parameter P₁ T₁ p.V_0 p = p.grueneisen_0) := by
  refine ⟨rfl, rfl, fun h => ?_⟩
  simp [grueneisen_parameter, div_self h, Real.one_rpow]

/-- C9 witness: at the concrete Parameter Set `pInj` the Grüneisen
parameter evaluated at the reference volume is the reference value. -/
theorem grueneisen_parameter_pure_witness :
    grueneisen_parameter 1 2 pInj.V_0 pInj = pInj.grueneisen_0 :=
  (grueneisen_parameter_pure 1 2 3 4 5 pInj).2.2 (by norm_num [pInj])

/-- C6: the thermal-pressure integral is exactly the closed form
`Cv*grueneisen_0/q_0*((V/V_0)^q_0 - 1)`, whose computation divides by
`q_0`; the source has no special case at `q_0 = 0`, where the embedded
division-by-zero convention collapses the expression to `0` (not the
limit form `Cv*grueneisen_0*log(V/V_0)`). -/
theorem int_aKt_dV_closed_form (T V : ℝ) (p : Params) :
    int_aKt_dV T V p
        = p.Cv * p.grueneisen_0 / p.q_0 * ((V / p.V_0) ^ p.q_0 - 1) ∧
    (p.q_0 = 0 → int_aKt_dV T V p = 0) := by
  refine ⟨rfl, fun h => ?_⟩
  simp [int_aKt_dV, h, Real.rpow_zero]

/-- C6 witness: at the concrete Parameter Set `pInj` (which has
`q_0 = 0`) the integral degenerates to `0`. -/
theorem int_aKt_dV_closed_form_witness : int_aKt_dV 1 2 pInj = 0 :=
  (int_aKt_dV_closed_form 1 2 pInj).2 (by norm_num [pInj])

/-- C2: the pressure is exactly the closed form
`3*K_0*(1+2f)^(5/2)*(f + a3*f^2/2 + a4*f^3/6)
 + Cv*(T - T_0)*grueneisen_0*(V/V_0)^q_0/V`
with `f = (1/2)*((V_0/V)^(2/3) - 1)`, `a3 = 3*(Kprime_0 - 4)` and
`a4 = 9*(K_0*Kdprime_0 + Kprime_0*(Kprime_0 - 7)) + 143`; it is a total
function of the embedding, with no error condition. -/
theorem pressure_closed_form (T V : ℝ) (p : Params) :
    pressure T V p
      = 3 * p.K_0
            * (1 + 2 * ((1 / 2) * ((p.V_0 / V) ^ ((2 : ℝ) / 3) - 1))) ^ ((5 : ℝ) / 2)
            * ((1 / 2) * ((p.V_0 / V) ^ ((2 : ℝ) / 3) - 1)
              + 3 * (p.Kprime_0 - 4) * ((1 / 2) * ((p.V_0 / V) ^ ((2 : ℝ) / 3) - 1)) ^ 2 / 2
              + (9 * (p.K_0 * p.Kdprime_0 + p.Kprime_0 * (p.Kprime_0 - 7)) + 143)
                  * ((1 / 2) * ((p.V_0 / V) ^ ((2 : ℝ) / 3) - 1)) ^ 3 / 6)
        + p.Cv * (T - p.T_0) * (p.grueneisen_0 * (V / p.V_0) ^ p.q_0) / V := by
  have h25 : (2.5 : ℝ) = 5 / 2 := by norm_num
  simp only [pressure, grueneisen_parameter, finite_strain, h25]
  ring

/-- C5: the Helmholtz free energy is exactly
`E_0 - T_0*S_0 + F_cmp(V) + F_th(T, V)` with `F_cmp` the fixed
fourth-order finite-strain expansion
`9*K_0*V_0*(f^2/2 + a3*f^3/6 + a4*f^4/24)`, and consequently at the
reference point `(T_0, V_0)` it equals `E_0 - T_0*S_0` exactly, for any
pressure argument. -/
theorem helmholtz_free_energy_spec (P T V : ℝ) (p : Params) :
    (helmholtz_free_energy P T V p
        = p.E_0 - p.T_0 * p.S_0
          + 9 * p.K_0 * p.V_0 *
            (finite_strain T V p ^ 2 / 2
              + 3 * (p.Kprime_0 - 4) * finite_strain T V p ^ 3 / 6
              + (9 * (p.K_0 * p.Kdprime_0 + p.Kprime_0 * (p.Kprime_0 - 7)) + 143)
                  * finite_strain T V p ^ 4 / 24)
          + F_th T V p) ∧
    helmholtz_free_energy P p.T_0 p.V_0 p = p.E_0 - p.T_0 * p.S_0 := by
  constructor
  · simp only [helmholtz_free_energy, F_cmp]
    ring
  · have hcmp : F_cmp p.T_0 p.V_0 p = 0 := by
      rcases eq_or_ne p.V_0 0 with h0 | h0
      · simp [F_cmp, h0]
      · simp [F_cmp, finite_strain, div_self h0, Real.one_rpow]
    have hth : F_th p.T_0 p.V_0 p = 0 := by
      rcases eq_or_ne p.T_0 0 with h0 | h0
      · simp [F_th, h0]
      · simp [F_th, div_self h0, Real.log_one]
    rw [helmholtz_free_energy, hcmp, hth]
    ring

/-- C10: the parameter `n` is never load-bearing: replacing its value in
a Parameter Set leaves every public operation of the evaluator
unchanged. -/
theorem n_not_load_bearing (p : Params) (x P T V : ℝ) :
    pressure T V { p with n := x } = pressure T V p ∧
    volume P T { p with n := x } = volume P T p ∧
    entropy P T V { p with n := x } = entropy P T V p ∧
    helmholtz_free_energy P T V { p with n := x } = helmholtz_free_energy P T V p ∧
    internal_energy P T V { p with n := x } = internal_energy P T V p ∧
    enthalpy P T V { p with n := x } = enthalpy P T V p ∧
    gibbs_free_energy P T V { p with n := x } = gibbs_free_energy P T V p ∧
    grueneisen_parameter P T V { p with n := x } = grueneisen_parameter P T V p ∧
    heat_capacity_v P T V { p with n := x } = heat_capacity_v P T V p ∧
    isothermal_bulk_modulus P T V { p with n := x } = isothermal_bulk_modulus P T V p ∧
    adiabatic_bulk_modulus P T V { p with n := x } = adiabatic_bulk_modulus P T V p ∧
    shear_modulus P T V { p with n := x } = shear_modulus P T V p ∧
    heat_capacity_p P T V { p with n := x } = heat_capacity_p P T V p ∧
    thermal_expansivity P T V { p with n := x } = thermal_expansivity P T V p :=
  ⟨rfl, rfl, rfl, rfl, rfl, rfl, rfl, rfl, rfl, rfl, rfl, rfl, rfl, rfl⟩

lemma bracketSearchAux_step (g : ℝ → ℝ) (x0 dx : ℝ) (k fuel : ℕ) :
    bracketSearchAux g x0 dx k (fuel + 1)
      = if g (bracketIntervals x0 dx k).1 * g (bracketIntervals x0 dx k).2 < 0
        then some (bracketIntervals x0 dx k)
        else bracketSearchAux g x0 dx (k + 1) fuel := rfl

lemma bracketSearchAux_none (g : ℝ → ℝ) (x0 dx : ℝ)
    (h : ∀ k, ¬ (g (bracketIntervals x0 dx k).1 * g (bracketIntervals x0 dx k).2 < 0)) :
    ∀ fuel k, bracketSearchAux g x0 dx k fuel = none := by
  intro fuel
  induction fuel with
  | zero => intro k; rfl
  | succ m ih =>
      intro k
      rw [bracketSearchAux_step, if_neg (h k)]
      exact ih (k + 1)

lemma bracketSearchAux_some (g : ℝ → ℝ) (x0 dx : ℝ) :
    ∀ fuel k lo hi, bracketSearchAux g x0 dx k fuel = some (lo, hi) →
      ∃ j, bracketIntervals x0 dx j = (lo, hi) := by
  intro fuel
  induction fuel with
  | zero => intro k lo hi h; exact absurd h (by rw [bracketSearchAux]; simp)
  | succ m ih =>
      intro k lo hi h
      rw [bracketSearchAux_step] at h
      by_cases hc : g (bracketIntervals x0 dx k).1 * g (bracketIntervals x0 dx k).2 < 0
      · rw [if_pos hc] at h
        exact ⟨k, Option.some_inj.1 h⟩
      · rw [if_neg hc] at h
        exact ih (k + 1) lo hi h

lemma bracketSearch_found_at_zero (g : ℝ → ℝ) (x0 dx : ℝ)
    (h : g (dx / 2 ^ 0) * g (x0 * 2 ^ 0) < 0) :
    bracketSearch g x0 dx = some (dx / 2 ^ 0, x0 * 2 ^ 0) := by
  rw [bracketSearch, show maxBracketIter = 99 + 1 from rfl, bracketSearchAux_step]
  simp only [bracketIntervals]
  rw [if_pos h]

lemma pressure_pInj (v : ℝ) : pressure 1 v pInj = 1 / v := by
  simp [pressure, grueneisen_parameter, finite_strain, pInj, Real.rpow_zero]

lemma pressure_pConst (v : ℝ) (hv : v ≠ 0) : pressure 1 v pConst = 1 := by
  simp [pressure, grueneisen_parameter, finite_strain, pConst, Real.rpow_one, div_self hv]

lemma bracketSearch_pInj :
    bracketSearch (fun x => delta_pressure x 2 1 pInj) pInj.V_0 (1e-2 * pInj.V_0)
      = some (1e-2 * pInj.V_0 / 2 ^ 0, pInj.V_0 * 2 ^ 0) := by
  apply bracketSearch_found_at_zero
  have e1 : delta_pressure (1e-2 * pInj.V_0 / 2 ^ 0) 2 1 pInj = -98 := by
    rw [delta_pressure, show (1e-2 * pInj.V_0 / 2 ^ 0 : ℝ) = 1e-2 by norm_num [pInj],
      pressure_pInj]
    norm_num
  have e2 : delta_pressure (pInj.V_0 * 2 ^ 0) 2 1 pInj = 1 := by
    rw [delta_pressure, show (pInj.V_0 * 2 ^ 0 : ℝ) = 1 by norm_num [pInj], pressure_pInj]
    norm_num
  simp only [e1, e2]
  norm_num

lemma volume_rel_pInj_half : volume_rel 2 1 pInj (1 / 2) := by
  refine ⟨1e-2 * pInj.V_0 / 2 ^ 0, pInj.V_0 * 2 ^ 0, bracketSearch_pInj, ?_, ?_, ?_⟩
  · norm_num [pInj]
  · norm_num [pInj]
  · rw [delta_pressure, pressure_pInj]
    norm_num

lemma delta_pConst (v : ℝ) (hv : v ≠ 0) : delta_pressure v 2 1 pConst = 1 := by
  rw [delta_pressure, pressure_pConst v hv]
  norm_num

lemma bracketSearch_pConst :
    bracketSearch (fun x => delta_pressure x 2 1 pConst) pConst.V_0 (1e-2 * pConst.V_0)
      = none := by
  rw [bracketSearch]
  apply bracketSearchAux_none
  intro k
  have hlo : (bracketIntervals pConst.V_0 (1e-2 * pConst.V_0) k).1 = 1e-2 / 2 ^ k := by
    simp [bracketIntervals, pConst]
  have hhi : (bracketIntervals pConst.V_0 (1e-2 * pConst.V_0) k).2 = 2 ^ k := by
    simp [bracketIntervals, pConst]
  have h1 : ((1e-2 : ℝ) / 2 ^ k) ≠ 0 := by positivity
  have h2 : ((2 : ℝ) ^ k) ≠ 0 := by positivity
  simp only [hlo, hhi, delta_pConst _ h1, delta_pConst _ h2]
  norm_num

/-- C3 (amended): when the bracketing search finds no sign change,
`volume` fails with a catchable exception — but it is the generic
`Exception` kind carrying a human-readable message, re-raised in place of
the helper's `ValueError`, not a distinct root-not-bracketed error kind. -/
theorem volume_failure_generic_exception (P T : ℝ) (p : Params)
    (h : bracketSearch (fun x => delta_pressure x P T p) p.V_0 (1e-2 * p.V_0) = none) :
    volume P T p = .error (.exception
      "Cannot find a volume, perhaps you are outside of the range of validity for the equation of state?") := by
  unfold volume
  rw [h]

/-- C3 witness: the amended failure behaviour at the concrete constant
pressure Parameter Set, where the requested pressure `2` is unreachable. -/
theorem volume_failure_generic_exception_witness :
    volume 2 1 pConst = .error (.exception
      "Cannot find a volume, perhaps you are outside of the range of validity for the equation of state?") :=
  volume_failure_generic_exception 2 1 pConst bracketSearch_pConst

/-- C3 counterexample: on a concrete input on which no residual sign
change exists anywhere in the search space, `volume` fails with the
generic `Exception` constructor — not a distinct root-not-bracketed
error kind distinguishable from a generic error, contrary to the claim. -/
theorem volume_error_kind_counterexample :
    bracketSearch (fun x => delta_pressure x 2 1 pConst) pConst.V_0 (1e-2 * pConst.V_0)
        = none ∧
    volume 2 1 pConst = .error (.exception
      "Cannot find a volume, perhaps you are outside of the range of validity for the equation of state?") :=
  ⟨bracketSearch_pConst, by unfold volume; rw [bracketSearch_pConst]⟩

/-- C7 (amended): `enthalpy` re-derives its `P*V` volume by the internal
root-finding inversion (its result uses the Brent root of the bracket the
search returns), whereas `gibbs_free_energy` uses the caller-supplied
volume argument: `G = F + P*V` with `V` the argument. -/
theorem enthalpy_internal_volume_gibbs_caller_volume (P T V : ℝ) (p : Params) :
    gibbs_free_energy P T V p = helmholtz_free_energy P T V p + P * V ∧
    (∀ lo hi,
      bracketSearch (fun x => delta_pressure x P T p) p.V_0 (1e-2 * p.V_0)
          = some (lo, hi) →
      enthalpy P T V p
        = .ok (helmholtz_free_energy P T V p + T * entropy P T V p
            + P * brentq (fun x => delta_pressure x P T p) lo hi)) := by
  refine ⟨rfl, fun lo hi h => ?_⟩
  unfold enthalpy volume
  rw [h]
  rfl

/-- C7 witness: the amended behaviour at the concrete Parameter Set
`pInj`, whose bracketing search succeeds on the starting interval. -/
theorem enthalpy_internal_volume_witness :
    enthalpy 2 1 0 pInj
      = .ok (helmholtz_free_energy 2 1 0 pInj + 1 * entropy 2 1 0 pInj
          + 2 * brentq (fun x => delta_pressure x 2 1 pInj)
              (1e-2 * pInj.V_0 / 2 ^ 0) (pInj.V_0 * 2 ^ 0)) :=
  (enthalpy_internal_volume_gibbs_caller_volume 2 1 0 pInj).2 _ _ bracketSearch_pInj

/-- C7 counterexample: at `pInj` with requested pressure `2` the unique
admissible internally derived volume is `1/2` (it is a residual root
inside the returned bracket), yet `gibbs_free_energy` evaluated with the
caller-supplied volume `3` differs from `F + P*(1/2)`: `gibbs` does not
re-derive the volume internally, contrary to the claim. -/
theorem gibbs_caller_volume_counterexample :
    volume_rel 2 1 pInj (1 / 2) ∧
    gibbs_free_energy 2 1 3 pInj
      ≠ helmholtz_free_energy 2 1 3 pInj + 2 * (1 / 2) := by
  refine ⟨volume_rel_pInj_half, ?_⟩
  rw [gibbs_free_energy]
  intro h
  have h' := add_left_cancel h
  norm_num at h'

/-- C1 (amended): for a Parameter Set with `V_0 > 0` on which
`pressure(T, ., params)` is injective over positive volumes, every
admissible output of `volume(pressure(T, V, params), T, params)` equals
`V` exactly (root-finder tolerance idealized to zero). -/
theorem volume_roundtrip_of_injective (p : Params) (T V : ℝ)
    (hV : 0 < V) (hV0 : 0 < p.V_0)
    (hinj : ∀ v₁ v₂, 0 < v₁ → 0 < v₂ →
      pressure T v₁ p = pressure T v₂ p → v₁ = v₂)
    (Vout : ℝ) (h : volume_rel (pressure T V p) T p Vout) : Vout = V := by
  obtain ⟨lo, hi, hsearch, hlo, hhi, hroot⟩ := h
  rw [bracketSearch] at hsearch
  obtain ⟨j, hj⟩ := bracketSearchAux_some _ _ _ maxBracketIter 0 lo hi hsearch
  have hlo_eq : 1e-2 * p.V_0 / 2 ^ j = lo := by
    simpa [bracketIntervals] using congrArg Prod.fst hj
  have hlopos : 0 < lo := by
    rw [← hlo_eq]
    positivity
  have hVoutpos : 0 < Vout := lt_of_lt_of_le hlopos hlo
  have hpeq : pressure T Vout p = pressure T V p := by
    rw [delta_pressure] at hroot
    linarith
  exact hinj Vout V hVoutpos hV hpeq

lemma rpow_eq_of_pow_eq {b c : ℝ} (hb : 0 ≤ b) (hc : 0 ≤ c) (m n : ℕ) (hn : n ≠ 0)
    (h : b ^ m = c ^ n) : b ^ ((m : ℝ) / (n : ℝ)) = c := by
  have hn' : ((n : ℕ) : ℝ) ≠ 0 := Nat.cast_ne_zero.2 hn
  have key : (b ^ ((m : ℝ) / (n : ℝ))) ^ n = c ^ n := by
    rw [← Real.rpow_natCast (b ^ ((m : ℝ) / (n : ℝ))) n, ← Real.rpow_mul hb,
      div_mul_cancel₀ _ hn', Real.rpow_natCast, h]
  have hbr : 0 ≤ b ^ ((m : ℝ) / (n : ℝ)) := Real.rpow_nonneg hb _
  rcases lt_trichotomy (b ^ ((m : ℝ) / (n : ℝ))) c with hlt | heq | hgt
  · have hcontra := pow_lt_pow_left₀ hlt hbr hn
    rw [key] at hcontra
    exact absurd hcontra (lt_irrefl _)
  · exact heq
  · have hcontra := pow_lt_pow_left₀ hgt hc hn
    rw [key] at hcontra
    exact absurd hcontra (lt_irrefl _)

lemma rpow_eight_thirds : (8 : ℝ) ^ ((2 : ℝ) / 3) = 4 := by
  have h := rpow_eq_of_pow_eq (b := 8) (c := 4) (by norm_num) (by norm_num) 2 3
    (by norm_num) (by norm_num)
  norm_num at h
  exact h

lemma rpow_twentyseven_thirds : (27 : ℝ) ^ ((2 : ℝ) / 3) = 9 := by
  have h := rpow_eq_of_pow_eq (b := 27) (c := 9) (by norm_num) (by norm_num) 2 3
    (by norm_num) (by norm_num)
  norm_num at h
  exact h

lemma rpow_four_halves : (4 : ℝ) ^ ((2.5 : ℝ)) = 32 := by
  have h := rpow_eq_of_pow_eq (b := 4) (c := 32) (by norm_num) (by norm_num) 5 2
    (by norm_num) (by norm_num)
  norm_num at h
  convert h using 2
  norm_num

lemma rpow_nine_halves : (9 : ℝ) ^ ((2.5 : ℝ)) = 243 := by
  have h := rpow_eq_of_pow_eq (b := 9) (c := 243) (by norm_num) (by norm_num) 5 2
    (by norm_num) (by norm_num)
  norm_num at h
  convert h using 2
  norm_num

lemma pressure_pC1 (v : ℝ) :
    pressure 300 v pC1
      = 3 * (1 + 2 * finite_strain 300 v pC1) ^ (2.5 : ℝ)
          * (finite_strain 300 v pC1
              + (-737 / 636) * finite_strain 300 v pC1 * finite_strain 300 v pC1 / 2
              + (1 / 2) / 6 * finite_strain 300 v pC1 * finite_strain 300 v pC1
                  * finite_strain 300 v pC1) := by
  simp only [pressure, grueneisen_parameter, pC1]
  norm_num

lemma fs_pC1_eighth : finite_strain 300 ((1 : ℝ) / 8) pC1 = 3 / 2 := by
  rw [finite_strain, show (pC1.V_0 / ((1 : ℝ) / 8)) = 8 by norm_num [pC1], rpow_eight_thirds]
  norm_num

lemma fs_pC1_27th : finite_strain 300 ((1 : ℝ) / 27) pC1 = 4 := by
  rw [finite_strain, show (pC1.V_0 / ((1 : ℝ) / 27)) = 27 by norm_num [pC1],
    rpow_twentyseven_thirds]
  norm_num

lemma fs_pC1_one : finite_strain 300 (1 : ℝ) pC1 = 0 := by
  rw [finite_strain, show (pC1.V_0 / (1 : ℝ)) = 1 by norm_num [pC1], Real.one_rpow]
  norm_num

lemma pressure_pC1_eighth : pressure 300 ((1 : ℝ) / 8) pC1 = 2430 / 53 := by
  rw [pressure_pC1, fs_pC1_eighth, show (1 + 2 * ((3 : ℝ) / 2)) = 4 by norm_num,
    rpow_four_halves]
  norm_num

lemma pressure_pC1_27th : pressure 300 ((1 : ℝ) / 27) pC1 = 2430 / 53 := by
  rw [pressure_pC1, fs_pC1_27th, show (1 + 2 * (4 : ℝ)) = 9 by norm_num, rpow_nine_halves]
  norm_num

lemma pressure_pC1_one : pressure 300 (1 : ℝ) pC1 = 0 := by
  rw [pressure_pC1, fs_pC1_one, show (1 + 2 * (0 : ℝ)) = 1 by norm_num, Real.one_rpow]
  norm_num

lemma gCubic_lower (f : ℝ) (hf : 10 ≤ f) :
    (35 : ℝ) ≤ f + (-737 / 636) * f * f / 2 + (1 / 2) / 6 * f * f * f := by
  nlinarith [sq_nonneg (f - 10), sq_nonneg f,
    mul_nonneg (mul_nonneg (sub_nonneg.2 hf) (sub_nonneg.2 hf)) (sub_nonneg.2 hf)]

lemma pressure_pC1_lo_large : (2430 : ℝ) / 53 < pressure 300 (1e-2 : ℝ) pC1 := by
  have hs_nonneg : (0 : ℝ) ≤ (100 : ℝ) ^ ((2 : ℝ) / 3) := Real.rpow_nonneg (by norm_num) _
  have hs3 : ((100 : ℝ) ^ ((2 : ℝ) / 3)) ^ (3 : ℕ) = 10000 := by
    rw [← Real.rpow_natCast ((100 : ℝ) ^ ((2 : ℝ) / 3)) 3, ← Real.rpow_mul (by norm_num),
      show ((2 : ℝ) / 3 * ((3 : ℕ) : ℝ)) = ((2 : ℕ) : ℝ) by push_cast; ring,
      Real.rpow_natCast]
    norm_num
  have hs21 : (21 : ℝ) ≤ (100 : ℝ) ^ ((2 : ℝ) / 3) := by
    by_contra hlt
    push_neg at hlt
    have h2 := pow_lt_pow_left₀ hlt hs_nonneg (n := 3) (by norm_num)
    rw [hs3] at h2
    norm_num at h2
  have hfs : finite_strain 300 (1e-2 : ℝ) pC1
      = 1 / 2 * ((100 : ℝ) ^ ((2 : ℝ) / 3) - 1) := by
    rw [finite_strain, show (pC1.V_0 / (1e-2 : ℝ)) = 100 by norm_num [pC1]]
  have hf10 : (10 : ℝ) ≤ 1 / 2 * ((100 : ℝ) ^ ((2 : ℝ) / 3) - 1) := by linarith
  have hg := gCubic_lower _ hf10
  have h1s : 1 + 2 * (1 / 2 * ((100 : ℝ) ^ ((2 : ℝ) / 3) - 1)) = (100 : ℝ) ^ ((2 : ℝ) / 3) := by
    ring
  have hs25 : (441 : ℝ) ≤ ((100 : ℝ) ^ ((2 : ℝ) / 3)) ^ (2.5 : ℝ) := by
    have h1 : ((21 : ℝ)) ^ (2.5 : ℝ) ≤ ((100 : ℝ) ^ ((2 : ℝ) / 3)) ^ (2.5 : ℝ) :=
      Real.rpow_le_rpow (by norm_num) hs21 (by norm_num)
    have h2 : ((21 : ℝ)) ^ (((2 : ℕ) : ℝ)) ≤ (21 : ℝ) ^ (2.5 : ℝ) :=
      Real.rpow_le_rpow_of_exponent_le (by norm_num) (by push_cast; norm_num)
    have h3 : ((21 : ℝ)) ^ (((2 : ℕ) : ℝ)) = 441 := by
      rw [Real.rpow_natCast]
      norm_num
    linarith
  have hs25nn : (0 : ℝ) ≤ ((100 : ℝ) ^ ((2 : ℝ) / 3)) ^ (2.5 : ℝ) :=
    Real.rpow_nonneg hs_nonneg _
  rw [pressure_pC1, hfs, h1s]
  nlinarith [mul_le_mul hs25 hg (by norm_num : (0 : ℝ) ≤ 35) hs25nn]

lemma bracketSearch_pC1 :
    bracketSearch (fun x => delta_pressure x (2430 / 53) 300 pC1) pC1.V_0 (1e-2 * pC1.V_0)
      = some (1e-2 * pC1.V_0 / 2 ^ 0, pC1.V_0 * 2 ^ 0) := by
  apply bracketSearch_found_at_zero
  have e1 : delta_pressure (1e-2 * pC1.V_0 / 2 ^ 0) (2430 / 53) 300 pC1 < 0 := by
    rw [delta_pressure, show (1e-2 * pC1.V_0 / 2 ^ 0 : ℝ) = 1e-2 by norm_num [pC1]]
    have := pressure_pC1_lo_large
    linarith
  have e2 : (0 : ℝ) < delta_pressure (pC1.V_0 * 2 ^ 0) (2430 / 53) 300 pC1 := by
    rw [delta_pressure, show (pC1.V_0 * 2 ^ 0 : ℝ) = 1 by norm_num [pC1], pressure_pC1_one]
    norm_num
  exact mul_neg_of_neg_of_pos e1 e2

lemma volume_rel_pC1_27th : volume_rel (2430 / 53) 300 pC1 ((1 : ℝ) / 27) := by
  refine ⟨1e-2 * pC1.V_0 / 2 ^ 0, pC1.V_0 * 2 ^ 0, bracketSearch_pC1, ?_, ?_, ?_⟩
  · norm_num [pC1]
  · norm_num [pC1]
  · rw [delta_pressure, pressure_pC1_27th]
    norm_num

/-- C1 counterexample: at the concrete Parameter Set `pC1` (all eleven
parameters present, so valid for `validate_parameters`), the pressure at
`V = 1/8` and at `V = 1/27` is the same value `2430/53`; the bracketing
search for that pressure succeeds on the starting interval `[0.01, 1]`,
which contains both volumes, so `1/27` is an admissible output of
`volume(pressure(300, 1/8, pC1), 300, pC1)` — yet `1/27 ≠ 1/8`, a gap no
solver tolerance covers.  The round-trip claim fails for this valid
Parameter Set. -/
theorem volume_roundtrip_counterexample :
    volume_rel (pressure 300 ((1 : ℝ) / 8) pC1) 300 pC1 ((1 : ℝ) / 27) ∧
    ((1 : ℝ) / 27) ≠ (1 : ℝ) / 8 := by
  constructor
  · rw [pressure_pC1_eighth]
    exact volume_rel_pC1_27th
  · norm_num

/-- C1 witness: at the concrete injective Parameter Set `pInj`
(`pressure(1, v) = 1/v`), the admissible output `1/2` of the inversion of
`pressure(1, 1/2) = 2` recovers the starting volume `1/2`. -/
theorem volume_roundtrip_of_injective_witness :
    (0 : ℝ) < 1 / 2 ∧ ((1 : ℝ) / 2) = 1 / 2 := by
  refine ⟨by norm_num, ?_⟩
  refine volume_roundtrip_of_injective pInj 1 (1 / 2) (by norm_num) (by norm_num [pInj])
    (fun v₁ v₂ _ _ h => ?_) (1 / 2) ?_
  · rw [pressure_pInj, pressure_pInj] at h
    exact inv_injective (by simpa [one_div] using h)
  · rw [show pressure 1 (1 / 2 : ℝ) pInj = 2 by rw [pressure_pInj]; norm_num]
    exact volume_rel_pInj_half

end DKS_S
